import Mathlib

/-!
Verification of the RoboAI Image-to-Setting Animator core logic:
the Veo video-generation orchestrator (`generateVeoVideo`) and the
canvas compositor (`mergeImages`), shallowly embedded from the source.
-/

namespace RoboAI

/-! ## Veo orchestrator (`generateVeoVideo`) -/

/-- Shape of a submit failure as inspected by `generateVeoVideo`:
`error.status`, `error.code`, `error.error.code`, `error.message`
(or its `toString` fallback), `error.error.message`, `JSON.stringify(error)`. -/
structure VeoError where
  status : Option Nat
  code : Option Nat
  nestedCode : Option Nat
  message : String
  nestedMessage : String
  jsonString : String
deriving DecidableEq

/-- JavaScript `String.prototype.includes`: `pat` occurs as a contiguous
substring of `s`. -/
def containsSub (s pat : String) : Bool :=
  (List.range (s.data.length + 1)).any fun i => pat.data.isPrefixOf (s.data.drop i)

/-- The phrase matched by the recoverability check. -/
def notFoundMsg : String := "Requested entity was not found"

/-- The `isNotFound` classifier of `generateVeoVideo`: numeric 404 in
`status`, `code`, or nested `error.code`, or the phrase in the message,
nested message, or JSON-serialized form. -/
def isNotFound (e : VeoError) : Bool :=
  e.status == some 404 ||
  e.code == some 404 ||
  e.nestedCode == some 404 ||
  containsSub e.message notFoundMsg ||
  containsSub e.nestedMessage notFoundMsg ||
  containsSub e.jsonString notFoundMsg

/-- `video.uri` field of a generated-video entry. -/
structure VideoRef where
  uri : Option String
deriving DecidableEq

/-- One entry of `response.generatedVideos`. -/
structure GeneratedVideo where
  video : Option VideoRef
deriving DecidableEq

/-- The `response` payload of a video operation. -/
structure OpResponse where
  generatedVideos : Option (List GeneratedVideo)
deriving DecidableEq

/-- A remote video-generation operation handle: completion flag and
optional response payload. -/
structure Operation where
  done : Bool
  response : Option OpResponse
deriving DecidableEq

/-- The optional-chained access `operation.response?.generatedVideos?.[0]?.video?.uri`. -/
def extractUri (op : Operation) : Option String :=
  (((op.response.bind OpResponse.generatedVideos).bind List.head?).bind
    GeneratedVideo.video).bind VideoRef.uri

/-- Observable effects of one `generateVeoVideo` call, in order:
submit requests, the host key-selection flow, timer delays (ms), and
operation status polls. -/
inductive Event where
  | submit
  | selectKey
  | delay (ms : Nat)
  | poll
deriving DecidableEq

/-- Environment of one `generateVeoVideo` call: whether `window.aistudio`
is present, the outcome of the first submit, the outcome of the retried
submit (consulted only if a retry happens), and the successive refreshed
handles returned by `getVideosOperation`. -/
structure VeoEnv where
  aistudio : Bool
  submit1 : Except VeoError Operation
  submit2 : Except VeoError Operation
  polls : List Operation

/-- Failures `generateVeoVideo` can propagate: a (re)thrown submit error,
or the `"No video URI returned"` error. -/
inductive AnimError where
  | submitFailed (e : VeoError)
  | noVideoUri
deriving DecidableEq

/-- The polling loop: while `operation.done` is false, wait 5000ms and
replace the handle with the refreshed one. Returns `none` when the
supplied poll responses are exhausted before completion (the source loop
would keep polling). -/
def pollLoop (op : Operation) (polls : List Operation) :
    Option Operation × List Event :=
  if op.done then (some op, [])
  else
    match polls with
    | [] => (none, [])
    | p :: rest =>
      let r := pollLoop p rest
      (r.1, Event.delay 5000 :: Event.poll :: r.2)

/-- Result extraction after the loop: `if (!videoUri) throw`, else append
the API-key query parameter to build the download URL. -/
def finishOp (apiKey : String) (op : Operation) : Except AnimError String :=
  match extractUri op with
  | none => Except.error AnimError.noVideoUri
  | some u =>
      if u = "" then Except.error AnimError.noVideoUri
      else Except.ok (u ++ "&key=" ++ apiKey)

/-- Poll to completion from a submitted handle, then extract the result. -/
def runFromOp (apiKey : String) (op : Operation) (polls : List Operation) :
    Option (Except AnimError String) × List Event :=
  let r := pollLoop op polls
  (r.1.map (finishOp apiKey), r.2)

/-- `generateVeoVideo`: submit; on a failure classified by `isNotFound`
with `window.aistudio` present, open key selection, wait 1000ms, retry
the submit once; otherwise rethrow. Then poll and extract. The first
component is `none` when polling outruns the environment's responses. -/
def animate (apiKey : String) (env : VeoEnv) :
    Option (Except AnimError String) × List Event :=
  match env.submit1 with
  | Except.ok op =>
      let r := runFromOp apiKey op env.polls
      (r.1, Event.submit :: r.2)
  | Except.error e =>
      if isNotFound e && env.aistudio then
        match env.submit2 with
        | Except.ok op =>
            let r := runFromOp apiKey op env.polls
            (r.1, Event.submit :: Event.selectKey :: Event.delay 1000 ::
              Event.submit :: r.2)
        | Except.error e2 =>
            (some (Except.error (AnimError.submitFailed e2)),
             [Event.submit, Event.selectKey, Event.delay 1000, Event.submit])
      else
        (some (Except.error (AnimError.submitFailed e)), [Event.submit])

lemma pollLoop_events (polls : List Operation) (op : Operation) :
    ∀ ev ∈ (pollLoop op polls).2, ev = Event.delay 5000 ∨ ev = Event.poll := by
  induction polls generalizing op with
  | nil =>
      intro ev h
      unfold pollLoop at h
      split at h <;> simp at h
  | cons p rest ih =>
      intro ev h
      unfold pollLoop at h
      split at h
      · simp at h
      · simp only [List.mem_cons] at h
        rcases h with h | h | h
        · exact Or.inl h
        · exact Or.inr h
        · exact ih p ev h

lemma pollLoop_count_selectKey (op : Operation) (polls : List Operation) :
    ((pollLoop op polls).2).count Event.selectKey = 0 := by
  rw [List.count_eq_zero]
  intro hmem
  rcases pollLoop_events polls op _ hmem with h | h <;> simp at h

lemma pollLoop_count_submit (op : Operation) (polls : List Operation) :
    ((pollLoop op polls).2).count Event.submit = 0 := by
  rw [List.count_eq_zero]
  intro hmem
  rcases pollLoop_events polls op _ hmem with h | h <;> simp at h

/-- A failure carrying a plain numeric 404 status. -/
def e404 : VeoError :=
  { status := some 404, code := none, nestedCode := none,
    message := "", nestedMessage := "", jsonString := "" }

/-- A failure that the classifier does not recognise as recoverable. -/
def eHard : VeoError :=
  { status := some 500, code := none, nestedCode := none,
    message := "boom", nestedMessage := "", jsonString := "\x7b\x7d" }

/-- A completed operation carrying a video URI. -/
def opDoneUri : Operation :=
  { done := true,
    response := some { generatedVideos := some [{ video := some { uri := some "http://v" } }] } }

/-- A completed operation whose generated-videos list is empty. -/
def opDoneNoUri : Operation :=
  { done := true, response := some { generatedVideos := some [] } }

/-- An operation still in flight. -/
def opNotDone : Operation := { done := false, response := none }

/-- Environment: recoverable first failure, key selection available,
successful retry. -/
def envRecover : VeoEnv :=
  { aistudio := true, submit1 := Except.error e404,
    submit2 := Except.ok opDoneUri, polls := [] }

/-- Environment: non-recoverable first failure. -/
def envHard : VeoEnv :=
  { aistudio := true, submit1 := Except.error eHard,
    submit2 := Except.ok opDoneUri, polls := [] }

/-- Environment: recoverable first failure but the retried submit fails too. -/
def envRetryFail : VeoEnv :=
  { aistudio := true, submit1 := Except.error e404,
    submit2 := Except.error eHard, polls := [] }

/-- Environment: successful submit, completion flag false twice then true. -/
def envPoll : VeoEnv :=
  { aistudio := false, submit1 := Except.ok opNotDone,
    submit2 := Except.ok opNotDone, polls := [opNotDone, opDoneUri] }

/-- Environment: successful submit, terminal response with no URI. -/
def envNoUri : VeoEnv :=
  { aistudio := false, submit1 := Except.ok opDoneNoUri,
    submit2 := Except.ok opDoneNoUri, polls := [] }

/-- Environment: successful submit, terminal response with a URI. -/
def envUri : VeoEnv :=
  { aistudio := false, submit1 := Except.ok opDoneUri,
    submit2 := Except.ok opDoneUri, polls := [] }

/-- C1: when the first submit fails with a failure classified as
recoverable by `isNotFound` and `window.aistudio` is present, `animate`
performs exactly one key selection and exactly two submits, in the order
submit, key selection, 1000ms settle delay, retried submit; nothing after
the retried submit is another key selection or submit. -/
theorem animate_auth_recovery_single (apiKey : String) (env : VeoEnv) (e : VeoError)
    (h1 : env.submit1 = Except.error e) (h2 : isNotFound e = true)
    (h3 : env.aistudio = true) :
    ((animate apiKey env).2.count Event.selectKey = 1 ∧
     (animate apiKey env).2.count Event.submit = 2) ∧
    ∃ rest, (animate apiKey env).2 =
        Event.submit :: Event.selectKey :: Event.delay 1000 :: Event.submit :: rest ∧
      rest.count Event.selectKey = 0 ∧ rest.count Event.submit = 0 := by
  have htrace : ∃ rest, (animate apiKey env).2 =
      Event.submit :: Event.selectKey :: Event.delay 1000 :: Event.submit :: rest ∧
      rest.count Event.selectKey = 0 ∧ rest.count Event.submit = 0 := by
    simp only [animate, h1, h2, h3, Bool.and_self, if_true]
    cases hs : env.submit2 with
    | ok op =>
        exact ⟨(pollLoop op env.polls).2, rfl, pollLoop_count_selectKey op env.polls,
          pollLoop_count_submit op env.polls⟩
    | error e2 => exact ⟨[], rfl, rfl, rfl⟩
  obtain ⟨rest, heq, hsk, hsub⟩ := htrace
  refine ⟨⟨?_, ?_⟩, rest, heq, hsk, hsub⟩
  · rw [heq]
    simp [List.count_cons, hsk]
  · rw [heq]
    simp [List.count_cons, hsub]

/-- C1 witness: concrete recoverable failure with key selection available. -/
theorem animate_auth_recovery_single_witness :
    (((animate "k" envRecover).2.count Event.selectKey = 1 ∧
      (animate "k" envRecover).2.count Event.submit = 2) ∧
     ∃ rest, (animate "k" envRecover).2 =
         Event.submit :: Event.selectKey :: Event.delay 1000 :: Event.submit :: rest ∧
       rest.count Event.selectKey = 0 ∧ rest.count Event.submit = 0) :=
  animate_auth_recovery_single "k" envRecover e404 rfl (by decide) rfl

/-- C2: a first-submit failure that is not classified recoverable, or
arriving with no key-selection capability, propagates unmodified with no
key selection and no retry; and when the single retry itself fails, that
failure propagates with exactly two submits and no further retry. -/
theorem animate_propagates_failure (apiKey : String) (env : VeoEnv) (e : VeoError)
    (h1 : env.submit1 = Except.error e) :
    ((isNotFound e = false ∨ env.aistudio = false) →
      animate apiKey env =
        (some (Except.error (AnimError.submitFailed e)), [Event.submit])) ∧
    (∀ e2 : VeoError, isNotFound e = true → env.aistudio = true →
      env.submit2 = Except.error e2 →
      animate apiKey env =
        (some (Except.error (AnimError.submitFailed e2)),
         [Event.submit, Event.selectKey, Event.delay 1000, Event.submit])) := by
  constructor
  · intro h
    rcases h with h | h <;> simp [animate, h1, h]
  · intro e2 h2 h3 hs
    simp [animate, h1, h2, h3, hs]

/-- C2 witness: a non-recoverable failure propagates untouched; a failed
retry propagates the retry's failure. -/
theorem animate_propagates_failure_witness :
    animate "k" envHard =
      (some (Except.error (AnimError.submitFailed eHard)), [Event.submit]) ∧
    animate "k" envRetryFail =
      (some (Except.error (AnimError.submitFailed eHard)),
       [Event.submit, Event.selectKey, Event.delay 1000, Event.submit]) :=
  ⟨(animate_propagates_failure "k" envHard eHard rfl).1 (Or.inl (by decide)),
   (animate_propagates_failure "k" envRetryFail e404 rfl).2 eHard (by decide) rfl rfl⟩

/-- C3: after a successful submit whose handle reads not-done, and with
refreshed handles reading not-done then done, `animate` performs exactly
two polls, each preceded by a 5000ms delay, with the submit first, and
extracts the result from the final refreshed handle. -/
theorem animate_two_polls (apiKey : String) (env : VeoEnv) (op0 op1 op2 : Operation)
    (rest : List Operation)
    (h1 : env.submit1 = Except.ok op0) (h2 : op0.done = false)
    (h3 : env.polls = op1 :: op2 :: rest) (h4 : op1.done = false) (h5 : op2.done = true) :
    animate apiKey env =
      (some (finishOp apiKey op2),
       [Event.submit, Event.delay 5000, Event.poll, Event.delay 5000, Event.poll]) := by
  have hp2 : pollLoop op2 rest = (some op2, []) := by
    rw [pollLoop.eq_def, h5]
    simp
  have hp1 : pollLoop op1 (op2 :: rest) = (some op2, [Event.delay 5000, Event.poll]) := by
    rw [pollLoop.eq_def, h4]
    simp [hp2]
  have hp0 : pollLoop op0 (op1 :: op2 :: rest) =
      (some op2, [Event.delay 5000, Event.poll, Event.delay 5000, Event.poll]) := by
    rw [pollLoop.eq_def, h2]
    simp [hp1]
  simp [animate, h1, runFromOp, h3, hp0]

/-- C3 witness: completion flag false twice then true yields exactly two
delayed polls. -/
theorem animate_two_polls_witness :
    animate "k" envPoll =
      (some (finishOp "k" opDoneUri),
       [Event.submit, Event.delay 5000, Event.poll, Event.delay 5000, Event.poll]) :=
  animate_two_polls "k" envPoll opNotDone opNotDone opDoneUri [] rfl rfl rfl rfl rfl

/-- C4: on a terminal operation, a missing (or empty, which the falsy
check treats the same) video locator yields the missing-result failure,
never an undefined or empty URL; a present non-empty locator is returned
with the API-key query parameter appended. -/
theorem animate_terminal_uri (apiKey : String) (env : VeoEnv) (op : Operation)
    (h1 : env.submit1 = Except.ok op) (h2 : op.done = true) :
    ((extractUri op = none ∨ extractUri op = some "") →
      animate apiKey env =
        (some (Except.error AnimError.noVideoUri), [Event.submit])) ∧
    (∀ u : String, extractUri op = some u → u ≠ "" →
      animate apiKey env =
        (some (Except.ok (u ++ "&key=" ++ apiKey)), [Event.submit])) := by
  have hbase : animate apiKey env = (some (finishOp apiKey op), [Event.submit]) := by
    have hp : pollLoop op env.polls = (some op, []) := by
      rw [pollLoop.eq_def, h2]
      simp
    simp [animate, h1, runFromOp, hp]
  constructor
  · intro h
    rw [hbase]
    rcases h with h | h <;> simp [finishOp, h]
  · intro u hu hne
    rw [hbase]
    simp [finishOp, hu, hne]

/-- C4 witness: empty generated-videos list fails; present URI is adapted
into a download URL. -/
theorem animate_terminal_uri_witness :
    animate "k" envNoUri =
      (some (Except.error AnimError.noVideoUri), [Event.submit]) ∧
    animate "k" envUri =
      (some (Except.ok ("http://v" ++ "&key=" ++ "k")), [Event.submit]) :=
  ⟨(animate_terminal_uri "k" envNoUri opDoneNoUri rfl rfl).1 (Or.inl rfl),
   (animate_terminal_uri "k" envUri opDoneUri rfl rfl).2 "http://v" rfl (by decide)⟩

/-! ## Compositor (`mergeImages`) -/

/-- A decoded raster image: intrinsic pixel dimensions plus the base64
payload it was decoded from. -/
structure Img where
  width : Nat
  height : Nat
  data : String
deriving DecidableEq

/-- The foreground draw call's geometry:
`drawImage(fgImg, posX, posY, drawWidth, drawHeight)`. -/
structure FgDraw where
  posX : ℚ
  posY : ℚ
  drawWidth : ℚ
  drawHeight : ℚ
deriving DecidableEq

/-- Everything `mergeImages` puts on (or asks of) the canvas: canvas
dimensions, the data URLs assigned to the two image sources, the
background blit origin, the foreground draw geometry, and the export
format passed to `toDataURL`. -/
structure MergeOutput where
  canvasWidth : Nat
  canvasHeight : Nat
  bgSrc : String
  fgSrc : String
  bgDrawX : ℚ
  bgDrawY : ℚ
  fgDraw : FgDraw
  exportFormat : String
deriving DecidableEq

/-- The foreground geometry of `mergeImages`: aspect = width/height of
the foreground, base width = background width times 0.33, draw width =
base times scale, draw height = draw width / aspect, draw origin =
anchor point minus half the draw size. -/
def mergeGeometry (bgW bgH fgW fgH : Nat) (fgX fgY fgScale : ℚ) : FgDraw :=
  let fgAspect : ℚ := (fgW : ℚ) / (fgH : ℚ)
  let baseWidth : ℚ := (bgW : ℚ) * (33 / 100)
  let drawWidth : ℚ := baseWidth * fgScale
  let drawHeight : ℚ := drawWidth / fgAspect
  { posX := (bgW : ℚ) * fgX - drawWidth / 2
    posY := (bgH : ℚ) * fgY - drawHeight / 2
    drawWidth := drawWidth
    drawHeight := drawHeight }

/-- The successful-path canvas content of one `mergeImages` call. -/
def mergeImages (bg fg : Img) (fgX fgY fgScale : ℚ) : MergeOutput :=
  { canvasWidth := bg.width
    canvasHeight := bg.height
    bgSrc := "data:image/png;base64," ++ bg.data
    fgSrc := "data:image/png;base64," ++ fg.data
    bgDrawX := 0
    bgDrawY := 0
    fgDraw := mergeGeometry bg.width bg.height fg.width fg.height fgX fgY fgScale
    exportFormat := "image/png" }

/-- Characters before and after the first comma of a character list. -/
def splitFirst : List Char → List Char × List Char
  | [] => ([], [])
  | c :: rest =>
      if c = ',' then ([], rest)
      else
        let r := splitFirst rest
        (c :: r.1, r.2)

/-- JavaScript `result.split(",")[1]`: the text strictly between the
first comma and the following comma (or the end of the string). -/
def jsSplitComma1 (s : String) : String :=
  String.mk (((splitFirst s.data).2).takeWhile fun c => c != ',')

/-- Outcome flags of the callback steps in one `mergeImages` call:
whether the background image decodes, whether the foreground image
decodes, and whether `getContext("2d")` yields a context. -/
structure CanvasEnv where
  bgDecodes : Bool
  fgDecodes : Bool
  ctxAvailable : Bool
deriving DecidableEq

/-- How one `mergeImages` call settles. -/
inductive MergeOutcome where
  | resolved (payload : String) (out : MergeOutput)
  | rejectedBgDecode
  | rejectedRender
  | pending
deriving DecidableEq

/-- One `mergeImages` call. `enc` stands for the browser's canvas PNG
encoder — the base64 payload of `canvas.toDataURL("image/png")`, which
is platform code, not this repository's. A background decode failure
fires `bgImg.onerror = reject`; a foreground decode failure fires no
handler, because none is installed on `fgImg`, so the promise stays
pending; a missing context rejects; otherwise the canvas is drawn,
exported as a PNG data URL, and the text after the first comma of that
data URL is resolved. -/
def mergeImagesRun (enc : MergeOutput → String) (env : CanvasEnv)
    (bg fg : Img) (fgX fgY fgScale : ℚ) : MergeOutcome :=
  if env.bgDecodes = false then MergeOutcome.rejectedBgDecode
  else if env.fgDecodes = false then MergeOutcome.pending
  else if env.ctxAvailable = false then MergeOutcome.rejectedRender
  else
    let out := mergeImages bg fg fgX fgY fgScale
    MergeOutcome.resolved (jsSplitComma1 ("data:image/png;base64," ++ enc out)) out

/-- Clamping as the spec's invariant words it. -/
def clampQ (lo hi v : ℚ) : ℚ := max lo (min hi v)

/-- Stated from the spec's words, for comparison with `mergeImages`: a
compositor that clamps the anchor into [0,1]×[0,1] and the scale into
[0.3, 2.0] before computing draw geometry. -/
def mergeImagesClampedSpec (bg fg : Img) (fgX fgY fgScale : ℚ) : MergeOutput :=
  mergeImages bg fg (clampQ 0 1 fgX) (clampQ 0 1 fgY) (clampQ (3 / 10) 2 fgScale)

/-- A concrete 100 by 50 background. -/
def imgBg : Img := { width := 100, height := 50, data := "B" }

/-- A concrete 10 by 20 foreground. -/
def imgFg : Img := { width := 10, height := 20, data := "F" }

lemma splitFirst_append (hd p : List Char) (hhd : ',' ∉ hd) :
    splitFirst (hd ++ ',' :: p) = (hd, p) := by
  induction hd with
  | nil => simp [splitFirst]
  | cons c t ih =>
      have hc : c ≠ ',' := by
        intro h
        exact hhd (by simp [h])
      have ht : ',' ∉ t := fun h => hhd (List.mem_cons_of_mem _ h)
      simp [splitFirst, hc, ih ht]

lemma takeWhile_no_comma (p : List Char) (hp : ',' ∉ p) :
    (p.takeWhile fun c => c != ',') = p := by
  induction p with
  | nil => rfl
  | cons c t ih =>
      have hc : c ≠ ',' := by
        intro h
        exact hp (by simp [h])
      have ht : ',' ∉ t := fun h => hp (List.mem_cons_of_mem _ h)
      simp [List.takeWhile_cons, bne_iff_ne, hc, ih ht]

lemma jsSplitComma1_dataUrl (p : String) (hp : ',' ∉ p.data) :
    jsSplitComma1 ("data:image/png;base64," ++ p) = p := by
  have hdata : ("data:image/png;base64," ++ p).data
      = "data:image/png;base64".data ++ ',' :: p.data := by
    have h1 : ("data:image/png;base64," ++ p).data
        = "data:image/png;base64,".data ++ p.data := String.data_append _ _
    rw [h1]
    rfl
  unfold jsSplitComma1
  rw [hdata, splitFirst_append _ _ (by decide), takeWhile_no_comma _ hp]

/-- C5: the output canvas dimensions equal the background's pixel
dimensions exactly, for every image pair and every placement — the
canvas is never scaled to the foreground. -/
theorem mergeImages_canvas_dims (bg fg : Img) (fgX fgY fgScale : ℚ) :
    (mergeImages bg fg fgX fgY fgScale).canvasWidth = bg.width ∧
    (mergeImages bg fg fgX fgY fgScale).canvasHeight = bg.height :=
  ⟨rfl, rfl⟩

/-- C6: the foreground draw width is background width times 0.33 times
scale, the height is width divided by the foreground's intrinsic aspect
ratio (so aspect ratio is preserved: height times intrinsic width equals
width times intrinsic height), the draw origin is the anchor point minus
half the draw size, and at anchor (1/2, 1/2) with scale 1 the foreground
is centered at the background's midpoint with width 0.33 times the
background width. -/
theorem mergeImages_geometry (bg fg : Img) (fgX fgY fgScale : ℚ)
    (hw : 0 < fg.width) (hh : 0 < fg.height) :
    (mergeImages bg fg fgX fgY fgScale).fgDraw.drawWidth
        = (bg.width : ℚ) * (33 / 100) * fgScale ∧
    (mergeImages bg fg fgX fgY fgScale).fgDraw.drawHeight
        = (mergeImages bg fg fgX fgY fgScale).fgDraw.drawWidth
            / ((fg.width : ℚ) / (fg.height : ℚ)) ∧
    (mergeImages bg fg fgX fgY fgScale).fgDraw.posX
        = (bg.width : ℚ) * fgX
            - (mergeImages bg fg fgX fgY fgScale).fgDraw.drawWidth / 2 ∧
    (mergeImages bg fg fgX fgY fgScale).fgDraw.posY
        = (bg.height : ℚ) * fgY
            - (mergeImages bg fg fgX fgY fgScale).fgDraw.drawHeight / 2 ∧
    (mergeImages bg fg fgX fgY fgScale).fgDraw.drawHeight * (fg.width : ℚ)
        = (mergeImages bg fg fgX fgY fgScale).fgDraw.drawWidth * (fg.height : ℚ) ∧
    (mergeImages bg fg (1 / 2) (1 / 2) 1).fgDraw.posX
        + (mergeImages bg fg (1 / 2) (1 / 2) 1).fgDraw.drawWidth / 2
        = (bg.width : ℚ) / 2 ∧
    (mergeImages bg fg (1 / 2) (1 / 2) 1).fgDraw.posY
        + (mergeImages bg fg (1 / 2) (1 / 2) 1).fgDraw.drawHeight / 2
        = (bg.height : ℚ) / 2 ∧
    (mergeImages bg fg (1 / 2) (1 / 2) 1).fgDraw.drawWidth
        = (33 / 100) * (bg.width : ℚ) := by
  have hw0 : (fg.width : ℚ) ≠ 0 := Nat.cast_ne_zero.mpr hw.ne'
  have hh0 : (fg.height : ℚ) ≠ 0 := Nat.cast_ne_zero.mpr hh.ne'
  refine ⟨rfl, rfl, rfl, rfl, ?_, ?_, ?_, ?_⟩
  · simp only [mergeImages, mergeGeometry]
    field_simp
    ring
  · simp only [mergeImages, mergeGeometry]
    ring
  · simp only [mergeImages, mergeGeometry]
    field_simp
    ring
  · simp only [mergeImages, mergeGeometry]
    ring

/-- C6 witness: concrete geometry at anchor (1/4, 3/4) and scale 2. -/
theorem mergeImages_geometry_witness :
    (mergeImages imgBg imgFg (1 / 4) (3 / 4) 2).fgDraw.drawWidth
        = (imgBg.width : ℚ) * (33 / 100) * 2 :=
  (mergeImages_geometry imgBg imgFg (1 / 4) (3 / 4) 2 (by decide) (by decide)).1

/-- C7: the code contradicts the spec's error contract on the foreground
image. A background decode failure rejects (the DecodeError path) and a
missing context rejects (the RenderError path), but a foreground decode
failure fires no handler — `fgImg.onerror` is never installed — so the
merge call never settles instead of failing with a DecodeError. -/
theorem mergeImages_fg_decode_never_settles :
    mergeImagesRun (fun _ => "") ⟨true, false, true⟩ imgBg imgFg (1 / 2) (1 / 2) 1
        = MergeOutcome.pending ∧
    mergeImagesRun (fun _ => "") ⟨false, true, true⟩ imgBg imgFg (1 / 2) (1 / 2) 1
        = MergeOutcome.rejectedBgDecode ∧
    mergeImagesRun (fun _ => "") ⟨true, true, false⟩ imgBg imgFg (1 / 2) (1 / 2) 1
        = MergeOutcome.rejectedRender :=
  ⟨rfl, rfl, rfl⟩

/-- C8 counterexample: the compositor does not clamp. At scale 3, which
lies outside the configured [0.3, 2.0] range, the draw width is computed
from the unclamped scale (99 on a 100-wide background), while the
spec-worded clamping compositor yields 66; the two outputs differ. -/
theorem mergeImages_no_clamp_counterexample :
    (mergeImages imgBg imgFg (1 / 2) (1 / 2) 3).fgDraw.drawWidth = 99 ∧
    (mergeImagesClampedSpec imgBg imgFg (1 / 2) (1 / 2) 3).fgDraw.drawWidth = 66 ∧
    mergeImages imgBg imgFg (1 / 2) (1 / 2) 3
        ≠ mergeImagesClampedSpec imgBg imgFg (1 / 2) (1 / 2) 3 := by
  have h1 : (mergeImages imgBg imgFg (1 / 2) (1 / 2) 3).fgDraw.drawWidth = 99 := by
    simp only [mergeImages, mergeGeometry, imgBg, imgFg]
    norm_num
  have h2 : (mergeImagesClampedSpec imgBg imgFg (1 / 2) (1 / 2) 3).fgDraw.drawWidth
      = 66 := by
    simp only [mergeImagesClampedSpec, clampQ, mergeImages, mergeGeometry, imgBg, imgFg]
    norm_num
  refine ⟨h1, h2, fun h => ?_⟩
  rw [h, h2] at h1
  norm_num at h1

/-- C8 amended: the compositor performs no clamping — draw geometry is
computed directly from the given anchor and scale, for every input
including out-of-range ones — and it does not crash: whenever both
images decode and a context is available, the call resolves with an
output. -/
theorem mergeImages_no_clamp (enc : MergeOutput → String) (bg fg : Img)
    (fgX fgY fgScale : ℚ) :
    (mergeImages bg fg fgX fgY fgScale).fgDraw.drawWidth
        = (bg.width : ℚ) * (33 / 100) * fgScale ∧
    (mergeImages bg fg fgX fgY fgScale).fgDraw.posX
        = (bg.width : ℚ) * fgX - ((bg.width : ℚ) * (33 / 100) * fgScale) / 2 ∧
    (mergeImages bg fg fgX fgY fgScale).fgDraw.posY
        = (bg.height : ℚ) * fgY
            - (mergeImages bg fg fgX fgY fgScale).fgDraw.drawHeight / 2 ∧
    mergeImagesRun enc ⟨true, true, true⟩ bg fg fgX fgY fgScale
        = MergeOutcome.resolved
            (jsSplitComma1
              ("data:image/png;base64," ++ enc (mergeImages bg fg fgX fgY fgScale)))
            (mergeImages bg fg fgX fgY fgScale) :=
  ⟨rfl, rfl, rfl, rfl⟩

/-- C9: the compositor is deterministic and free of shared state: any
two calls with identical background, foreground, anchor, and scale (and
the same platform encoder) settle identically, whatever successful
environments they run in. -/
theorem mergeImages_deterministic (enc : MergeOutput → String)
    (env env' : CanvasEnv) (bg fg : Img) (fgX fgY fgScale : ℚ)
    (h1 : env.bgDecodes = true) (h2 : env.fgDecodes = true)
    (h3 : env.ctxAvailable = true) (h4 : env'.bgDecodes = true)
    (h5 : env'.fgDecodes = true) (h6 : env'.ctxAvailable = true) :
    mergeImagesRun enc env bg fg fgX fgY fgScale
      = mergeImagesRun enc env' bg fg fgX fgY fgScale := by
  simp [mergeImagesRun, h1, h2, h3, h4, h5, h6]

/-- C9 witness: two concrete identical calls settle identically. -/
theorem mergeImages_deterministic_witness :
    mergeImagesRun (fun _ => "x") ⟨true, true, true⟩ imgBg imgFg (1 / 2) (1 / 2) 1
      = mergeImagesRun (fun _ => "x") ⟨true, true, true⟩ imgBg imgFg (1 / 2) (1 / 2) 1 :=
  mergeImages_deterministic (fun _ => "x") ⟨true, true, true⟩ ⟨true, true, true⟩
    imgBg imgFg (1 / 2) (1 / 2) 1 rfl rfl rfl rfl rfl rfl

/-- C10: on success the compositor always exports as PNG, resolves the
bare base64 payload with the data-URL head stripped, and labels both
input payloads as PNG data URLs regardless of their original encoding. -/
theorem mergeImages_png_roundtrip (enc : MergeOutput → String) (bg fg : Img)
    (fgX fgY fgScale : ℚ)
    (henc : ',' ∉ (enc (mergeImages bg fg fgX fgY fgScale)).data) :
    mergeImagesRun enc ⟨true, true, true⟩ bg fg fgX fgY fgScale
      = MergeOutcome.resolved (enc (mergeImages bg fg fgX fgY fgScale))
          (mergeImages bg fg fgX fgY fgScale) ∧
    (mergeImages bg fg fgX fgY fgScale).exportFormat = "image/png" ∧
    (mergeImages bg fg fgX fgY fgScale).bgSrc = "data:image/png;base64," ++ bg.data ∧
    (mergeImages bg fg fgX fgY fgScale).fgSrc = "data:image/png;base64," ++ fg.data := by
  refine ⟨?_, rfl, rfl, rfl⟩
  show MergeOutcome.resolved
      (jsSplitComma1
        ("data:image/png;base64," ++ enc (mergeImages bg fg fgX fgY fgScale)))
      (mergeImages bg fg fgX fgY fgScale) = _
  rw [jsSplitComma1_dataUrl _ henc]

/-- C10 witness: a concrete comma-free payload comes back bare. -/
theorem mergeImages_png_roundtrip_witness :
    mergeImagesRun (fun _ => "QUJD") ⟨true, true, true⟩ imgBg imgFg (1 / 2) (1 / 2) 1
      = MergeOutcome.resolved "QUJD" (mergeImages imgBg imgFg (1 / 2) (1 / 2) 1) :=
  (mergeImages_png_roundtrip (fun _ => "QUJD") imgBg imgFg (1 / 2) (1 / 2) 1
    (by decide)).1

end RoboAI
